import Mathlib

/-!
Verification of the forked_cats_extension browser-automation assistant.

This file shallowly embeds the parts of the source relevant to the frozen
claims:

* `TokenUsageManager` (token ledger) — storage-backed usage counter.
* `detectLanguage` — heuristic character-ratio language classifier.
* `BaseAgent.invoke` — the model invocation adapter (token gate, structured
  vs freeform parsing, cancellation, token consumption).
* `PlannerAgent.execute` — error classification on top of `invoke`.
* The executor step/failure counters (modelled from the spec; the executor
  loop itself is not among the provided sources) plus the
  `DEFAULT_GENERAL_SETTINGS` record from the settings store.
* `selectEnhancedDropdownOption` and `waitForDropdownOptions` from
  `enhanced-dropdown.ts`.

JavaScript numbers are modelled as `Int`/`Nat` (all values involved are
small integers, exact in doubles); ratio comparisons are modelled over `ℚ`
(the float divisions in the source agree with exact rational comparison for
every realizable string length, since the thresholds 0.1 and 0.7 round to
doubles within 7e-17 of the rationals while string lengths are bounded by
2^30). Storage and the DOM are modelled as explicit state values.
-/

namespace Cats

/-! ## JavaScript string primitives -/

/-- Whitespace in the sense of JavaScript `\s` and `String.prototype.trim`:
TAB, LF, VT, FF, CR, SP, NBSP, OGHAM SP, U+2000..U+200A, LS, PS, NNBSP,
MMSP, IDEOGRAPHIC SP, BOM. -/
def jsWhitespace (c : Char) : Bool :=
  let n := c.toNat
  n == 0x09 || n == 0x0a || n == 0x0b || n == 0x0c || n == 0x0d || n == 0x20 ||
  n == 0xa0 || n == 0x1680 || (0x2000 ≤ n && n ≤ 0x200a) || n == 0x2028 ||
  n == 0x2029 || n == 0x202f || n == 0x205f || n == 0x3000 || n == 0xfeff

/-- JavaScript `String.prototype.trim` on a list of characters. -/
def jsTrimData (l : List Char) : List Char :=
  ((l.dropWhile jsWhitespace).reverse.dropWhile jsWhitespace).reverse

/-- JavaScript `String.prototype.trim`. -/
def jsTrim (t : String) : String :=
  String.mk (jsTrimData t.data)

/-- Number of UTF-16 code units a code point occupies (JavaScript
`String.prototype.length` counts code units). -/
def utf16Units (c : Char) : Nat :=
  if c.toNat < 0x10000 then 1 else 2

/-- JavaScript `text.length`: the UTF-16 code-unit length. -/
def utf16Len (t : String) : Nat :=
  (t.data.map utf16Units).sum

/-- JavaScript `Error` stringification `` `${error}` `` for a plain
`new Error(msg)`. -/
def jsErrorString (msg : String) : String :=
  "Error: " ++ msg

/-! ## Token ledger (`TokenUsageManager`, src/unnamed/part_010) -/

/-- The stored `TokenUsage` record. `used`/`limit` are JavaScript numbers
(small integers); the two dates are kept as opaque ISO strings. -/
structure TokenUsage where
  used : Int
  limit : Int
  resetDate : String
  lastUsed : String
deriving DecidableEq, Repr

/-- FREE_TIER_LIMIT from the source. -/
def FREE_TIER_LIMIT : Int := 50

/-- Storage state for the ledger: the stored record plus whether the
monthly reset is due (`now >= resetDate`), which abstracts the date
comparison in `getTokenUsage`. -/
structure LedgerState where
  stored : TokenUsage
  resetDue : Bool
deriving DecidableEq, Repr

namespace TokenUsageManager

/-- Embeds `TokenUsageManager.getTokenUsage`: returns the stored usage,
first resetting it (used := 0, limit := FREE_TIER_LIMIT, resetDate :=
next month, lastUsed preserved) when the reset date has passed. The
`nextMonth` string stands for the freshly computed next-month ISO date. -/
def getTokenUsage (s : LedgerState) (nextMonth : String) : TokenUsage × LedgerState :=
  if s.resetDue then
    let r : TokenUsage :=
      { used := 0, limit := FREE_TIER_LIMIT, resetDate := nextMonth,
        lastUsed := s.stored.lastUsed }
    (r, { stored := r, resetDue := false })
  else
    (s.stored, s)

/-- Embeds `TokenUsageManager.getTokenCost`:
`DEFAULT_TOKEN_COSTS[model] || 1`. The cost table is a parameter (its
concrete value lives in settings/types, outside the embedded sources);
JavaScript `||` also replaces a zero cost by 1. -/
def getTokenCost (costs : String → Option Int) (model : String) : Int :=
  match costs model with
  | some c => if c = 0 then 1 else c
  | none => 1

/-- Embeds `TokenUsageManager.hasTokens`:
`usage.used + cost <= usage.limit`. -/
def hasTokens (s : LedgerState) (nextMonth : String) (costs : String → Option Int)
    (model : String) : Bool × LedgerState :=
  let (u, s1) := getTokenUsage s nextMonth
  (decide (u.used + getTokenCost costs model ≤ u.limit), s1)

/-- Result of `consumeTokens`. -/
structure ConsumeResult where
  success : Bool
  remaining : Int
deriving DecidableEq, Repr

/-- Embeds `TokenUsageManager.consumeTokens`: re-reads the usage, fails
(without writing) when `used + cost > limit`, otherwise stores
`used + cost` with a fresh `lastUsed` and reports the new remaining. The
`agentType` argument is only logged in the source and is ignored here. -/
def consumeTokens (s : LedgerState) (nextMonth : String) (costs : String → Option Int)
    (model : String) (now : String) : ConsumeResult × LedgerState :=
  let (u, s1) := getTokenUsage s nextMonth
  let cost := getTokenCost costs model
  if u.limit < u.used + cost then
    ({ success := false, remaining := u.limit - u.used }, s1)
  else
    let updated : TokenUsage :=
      { u with used := u.used + cost, lastUsed := now }
    ({ success := true, remaining := u.limit - updated.used },
     { s1 with stored := updated })

/-- Embeds `TokenUsageManager.getRemainingTokens`:
`Math.max(0, usage.limit - usage.used)`. -/
def getRemainingTokens (s : LedgerState) (nextMonth : String) : Int × LedgerState :=
  let (u, s1) := getTokenUsage s nextMonth
  (max 0 (u.limit - u.used), s1)

end TokenUsageManager

/-! ## Language detection (`detectLanguage`, src/unnamed/part_005) -/

/-- The `DetectedLanguage` union type. -/
inductive DetectedLanguage where
  | ja
  | en
  | auto
deriving DecidableEq, Repr

/-- Hiragana block `[぀-ゟ]`. -/
def isHiragana (c : Char) : Bool :=
  0x3040 ≤ c.toNat && c.toNat ≤ 0x309f

/-- Katakana block `[゠-ヿ]`. -/
def isKatakana (c : Char) : Bool :=
  0x30a0 ≤ c.toNat && c.toNat ≤ 0x30ff

/-- Kanji block `[一-龯]`. -/
def isKanji (c : Char) : Bool :=
  0x4e00 ≤ c.toNat && c.toNat ≤ 0x9faf

/-- The combined Japanese regex alternation. -/
def isJapaneseChar (c : Char) : Bool :=
  isHiragana c || isKatakana c || isKanji c

/-- The English-like class `[a-zA-Z0-9\s.,!?;:'"()\-]`; the punctuation
characters are `.` `,` `!` `?` `;` `:` `'` `"` `(` `)` `-`, written here by
code point. -/
def isEnglishLike (c : Char) : Bool :=
  let n := c.toNat
  (0x61 ≤ n && n ≤ 0x7a) || (0x41 ≤ n && n ≤ 0x5a) || (0x30 ≤ n && n ≤ 0x39) ||
  jsWhitespace c || n == 0x2e || n == 0x2c || n == 0x21 || n == 0x3f ||
  n == 0x3b || n == 0x3a || n == 0x27 || n == 0x22 || n == 0x28 ||
  n == 0x29 || n == 0x2d

/-- Number of regex matches of a single-character class over a string
(each matching code point is one match; surrogate halves of astral code
points match none of the classes used here). -/
def matchCount (p : Char → Bool) (t : String) : Nat :=
  (t.data.filter p).length

/-- Embeds `detectLanguage` from the source: empty or trim-empty input is
`auto`; else `ja` when the Japanese-match ratio exceeds 0.1; else `en`
when the English-like ratio exceeds 0.7; else `auto`. The source divides
JavaScript doubles; exact rational division agrees with it for every
realizable string length (see the header note). -/
def detectLanguage (t : String) : DetectedLanguage :=
  if t.data.isEmpty || (jsTrimData t.data).isEmpty then DetectedLanguage.auto
  else
    let len : ℚ := (utf16Len t : ℚ)
    if ((matchCount isJapaneseChar t : ℚ)) / len > (1 : ℚ) / 10 then DetectedLanguage.ja
    else if ((matchCount isEnglishLike t : ℚ)) / len > (7 : ℚ) / 10 then DetectedLanguage.en
    else DetectedLanguage.auto

/-- Statement of claim C9 in its own words: `auto` for whitespace-only or
empty input, otherwise `ja` exactly when Japanese characters exceed a 0.1
ratio of the length, otherwise `en` exactly when English-like characters
exceed a 0.7 ratio, otherwise `auto` (ratios compared exactly, by
cross-multiplication). -/
def detectLanguageSpec (t : String) : DetectedLanguage :=
  if t.data.all jsWhitespace then DetectedLanguage.auto
  else if 10 * matchCount isJapaneseChar t > utf16Len t then DetectedLanguage.ja
  else if 10 * matchCount isEnglishLike t > 7 * utf16Len t then DetectedLanguage.en
  else DetectedLanguage.auto

/-! ## Model invocation adapter (`BaseAgent.invoke`,
src/backend-service/README.md lines 373-469) -/

/-- Modelled from the spec: the kind of a thrown provider error, as
classified by the `isAbortedError` / `isAuthenticationError` /
`isForbiddenError` helpers of `agent/errors.ts`, which is not among the
provided sources; the spec's error taxonomy names cancellation,
provider-authentication and provider-forbidden errors, with everything
else generic. -/
inductive ErrKind where
  | aborted
  | auth
  | forbidden
  | other
deriving DecidableEq, Repr

/-- Outcome of `structuredLlm.invoke` (with `includeRaw`): a response whose
`parsed` field holds a value or is null, or a thrown error. -/
inductive StructuredOutcome (α : Type) where
  | parsedOk (a : α)
  | parsedNull
  | thrown (k : ErrKind) (msg : String)
deriving DecidableEq, Repr

/-- Outcome of `validateModelOutput` on the extracted JSON: the schema
parse throws, returns undefined, or returns a parsed value. -/
inductive ValidateOutcome (α : Type) where
  | throwsInvalid
  | undef
  | parsed (a : α)
deriving DecidableEq, Repr

/-- Outcome of `extractJsonFromModelOutput` on the cleaned content. -/
inductive ExtractOutcome (α : Type) where
  | throws (msg : String)
  | json (v : ValidateOutcome α)
deriving DecidableEq, Repr

/-- Outcome of the freeform `chatLLM.invoke` call and the subsequent
processing: a thrown error, a non-string `response.content`, or string
content together with what extraction does to it. -/
inductive FreeformOutcome (α : Type) where
  | thrown (k : ErrKind) (msg : String)
  | nonString
  | strContent (raw : String) (ex : ExtractOutcome α)
deriving DecidableEq, Repr

/-- Behavior of the chat model environment: what each of the two possible
calls would do if made. `invoke` consults exactly one of the two fields,
depending on `withStructuredOutput`. -/
structure ModelBehavior (α : Type) where
  structuredResult : StructuredOutcome α
  freeformResult : FreeformOutcome α
deriving DecidableEq, Repr

/-- The pieces of `AgentContext` that `invoke` reads: the detected response
language and the task's abort signal (an opaque identifier for
`context.controller.signal`). -/
structure InvokeContext where
  language : DetectedLanguage
  signal : String
deriving DecidableEq, Repr

/-- Result of one `invoke` call: the parsed output, the pre-call
insufficient-tokens failure, or a thrown error with its classification. -/
inductive InvokeResult (α : Type) where
  | ok (out : α)
  | insufficient (msg : String)
  | error (k : ErrKind) (msg : String)
deriving DecidableEq, Repr

/-- Whether an `InvokeResult` is the success case. -/
def InvokeResult.isOk {α : Type} : InvokeResult α → Bool
  | .ok _ => true
  | _ => false

/-- Full observable outcome of one `invoke` call: its result, the final
ledger state, how many times `consumeTokens` ran, how many chat-model
calls were made, and the abort signal attached to each model call. -/
structure InvokeOutcome (α : Type) where
  result : InvokeResult α
  ledger : LedgerState
  consumeCalls : Nat
  modelCalls : Nat
  signalsUsed : List String
deriving DecidableEq, Repr

/-- The localized insufficient-tokens message built by `invoke`. -/
def insufficientTokensMessage (lang : DetectedLanguage) (remaining cost : Int) : String :=
  if lang = DetectedLanguage.ja then
    "トークンが不足しています。残り: " ++ toString remaining ++ "、必要: " ++
      toString cost ++ "。来月まで待つか、プランをアップグレードしてください。"
  else
    "Insufficient tokens. Remaining: " ++ toString remaining ++ ", Required: " ++
      toString cost ++ ". Please wait until next month or upgrade your plan."

/-- The wrapper message thrown by the catch block on the structured path:
`` `${modelName}の構造化出力呼び出しに失敗しました: ${error}` ``. -/
def structuredFailMsg (modelName err : String) : String :=
  modelName ++ "の構造化出力呼び出しに失敗しました: " ++ err

namespace BaseAgent

/-- Embeds `BaseAgent.invoke`. Parameters: the context pieces, the model
name and agent id, the cost table, the `withStructuredOutput` flag, an
optional `signal` entry inside `callOptions` (the source spreads
`...this.callOptions` after the signal, so such an entry would override
it; the construction sites in the repository only pass temperature/topP),
the model behavior, the ledger state and the opaque date strings. -/
def invoke {α : Type} (ctx : InvokeContext) (modelName _agentId : String)
    (costs : String → Option Int) (withStructuredOutput : Bool)
    (callSignalOverride : Option String) (beh : ModelBehavior α)
    (s : LedgerState) (nextMonth now : String) : InvokeOutcome α :=
  let htp := TokenUsageManager.hasTokens s nextMonth costs modelName
  if htp.1 = false then
    let remp := TokenUsageManager.getRemainingTokens htp.2 nextMonth
    let cost := TokenUsageManager.getTokenCost costs modelName
    { result := InvokeResult.insufficient
        (insufficientTokensMessage ctx.language remp.1 cost),
      ledger := remp.2, consumeCalls := 0, modelCalls := 0, signalsUsed := [] }
  else
    let sig := callSignalOverride.getD ctx.signal
    if withStructuredOutput then
      match beh.structuredResult with
      | StructuredOutcome.parsedOk a =>
          let cns := TokenUsageManager.consumeTokens htp.2 nextMonth costs modelName now
          { result := InvokeResult.ok a, ledger := cns.2,
            consumeCalls := 1, modelCalls := 1, signalsUsed := [sig] }
      | StructuredOutcome.parsedNull =>
          { result := InvokeResult.error ErrKind.other
              (structuredFailMsg modelName
                (jsErrorString ("Could not parse response with structured output"))),
            ledger := htp.2, consumeCalls := 0, modelCalls := 1, signalsUsed := [sig] }
      | StructuredOutcome.thrown k msg =>
          if k = ErrKind.aborted then
            { result := InvokeResult.error ErrKind.aborted msg, ledger := htp.2,
              consumeCalls := 0, modelCalls := 1, signalsUsed := [sig] }
          else
            { result := InvokeResult.error ErrKind.other
                (structuredFailMsg modelName (jsErrorString msg)),
              ledger := htp.2, consumeCalls := 0, modelCalls := 1, signalsUsed := [sig] }
    else
      match beh.freeformResult with
      | FreeformOutcome.thrown k msg =>
          { result := InvokeResult.error k msg, ledger := htp.2,
            consumeCalls := 0, modelCalls := 1, signalsUsed := [sig] }
      | FreeformOutcome.nonString =>
          { result := InvokeResult.error ErrKind.other ("Could not parse response"),
            ledger := htp.2, consumeCalls := 0, modelCalls := 1, signalsUsed := [sig] }
      | FreeformOutcome.strContent _raw ex =>
          match ex with
          | ExtractOutcome.throws m =>
              { result := InvokeResult.error ErrKind.other
                  ("Failed to extract JSON from response: " ++ jsErrorString m),
                ledger := htp.2, consumeCalls := 0, modelCalls := 1, signalsUsed := [sig] }
          | ExtractOutcome.json ValidateOutcome.throwsInvalid =>
              { result := InvokeResult.error ErrKind.other
                  ("Failed to extract JSON from response: " ++
                    jsErrorString ("Could not validate model output")),
                ledger := htp.2, consumeCalls := 0, modelCalls := 1, signalsUsed := [sig] }
          | ExtractOutcome.json ValidateOutcome.undef =>
              { result := InvokeResult.error ErrKind.other ("Could not parse response"),
                ledger := htp.2, consumeCalls := 0, modelCalls := 1, signalsUsed := [sig] }
          | ExtractOutcome.json (ValidateOutcome.parsed a) =>
              let cns := TokenUsageManager.consumeTokens htp.2 nextMonth costs modelName now
              { result := InvokeResult.ok a, ledger := cns.2,
                consumeCalls := 1, modelCalls := 1, signalsUsed := [sig] }

end BaseAgent

/-! ## Planner agent (`PlannerAgent.execute`, src/unnamed/part_002) -/

/-- Modelled from the spec: `LLM_FORBIDDEN_ERROR_MESSAGE` is a constant
message exported by `agent/errors.ts`, which is not among the provided
sources. Its exact text is irrelevant to the claims. -/
def LLM_FORBIDDEN_ERROR_MESSAGE : String :=
  "LLM forbidden"

/-- Terminal behavior of `PlannerAgent.execute`: a successful
`AgentOutput` with a result, a recoverable `AgentOutput` carrying an error
string, or one of the three rethrown typed errors
(`ChatModelAuthError` / `ChatModelForbiddenError` / `RequestCancelledError`). -/
inductive AgentExecOutcome (α : Type) where
  | output (a : α)
  | failureOutput (errMsg : String)
  | thrownAuth (msg : String)
  | thrownForbidden (msg : String)
  | thrownCancelled (msg : String)
deriving DecidableEq, Repr

/-- Embeds the catch classification of `PlannerAgent.execute`: a thrown
error is re-raised as `ChatModelAuthError` when `isAuthenticationError`,
as `ChatModelForbiddenError` when `isForbiddenError`, as
`RequestCancelledError` (with the original message) when `isAbortedError`,
and otherwise becomes a recoverable `AgentOutput` with an `error` field.
A pre-call insufficient-tokens failure is a plain thrown `Error`, hence
recoverable. -/
def plannerHandle {α : Type} (r : InvokeResult α) : AgentExecOutcome α :=
  match r with
  | InvokeResult.ok a => AgentExecOutcome.output a
  | InvokeResult.insufficient m => AgentExecOutcome.failureOutput m
  | InvokeResult.error k m =>
      if k = ErrKind.auth then
        AgentExecOutcome.thrownAuth
          "Planner API Authentication failed. Please verify your API key"
      else if k = ErrKind.forbidden then
        AgentExecOutcome.thrownForbidden LLM_FORBIDDEN_ERROR_MESSAGE
      else if k = ErrKind.aborted then
        AgentExecOutcome.thrownCancelled m
      else
        AgentExecOutcome.failureOutput m

/-- Embeds `PlannerAgent.execute` around its `invoke` call (the message
assembly and event emission do not affect the claims): runs `invoke` with
the planner id and maps the result through the catch classification. -/
def plannerExecute {α : Type} (ctx : InvokeContext) (modelName : String)
    (costs : String → Option Int) (withStructuredOutput : Bool)
    (callSignalOverride : Option String) (beh : ModelBehavior α)
    (s : LedgerState) (nextMonth now : String) : AgentExecOutcome α :=
  plannerHandle (BaseAgent.invoke ctx modelName ("planner") costs withStructuredOutput
    callSignalOverride beh s nextMonth now).result

/-! ## General settings (src/unnamed/part_009) and the executor counters -/

/-- The `ThemeMode` union type. -/
inductive ThemeMode where
  | light
  | dark
  | system
deriving DecidableEq, Repr

/-- The `GeneralSettingsConfig` record. -/
structure GeneralSettingsConfig where
  maxSteps : Nat
  maxActionsPerStep : Nat
  maxFailures : Nat
  useVision : Bool
  useVisionForPlanner : Bool
  planningInterval : Nat
  displayHighlights : Bool
  minWaitPageLoad : Nat
  themeMode : ThemeMode
  firstTimeUser : Bool
deriving DecidableEq, Repr

/-- The `DEFAULT_GENERAL_SETTINGS` constant from the source. -/
def DEFAULT_GENERAL_SETTINGS : GeneralSettingsConfig :=
  { maxSteps := 100, maxActionsPerStep := 5, maxFailures := 3,
    useVision := false, useVisionForPlanner := false, planningInterval := 3,
    displayHighlights := true, minWaitPageLoad := 250,
    themeMode := ThemeMode.light, firstTimeUser := true }

/-- Modelled from the spec: the Executor's per-task counters (the
orchestration loop that owns the step counter and the consecutive-failure
counter is not among the provided sources). -/
structure ExecState where
  stepIndex : Nat
  failures : Nat
deriving DecidableEq, Repr

/-- Modelled from the spec: completing one Navigator step advances the
step index by exactly 1 and resets the consecutive-failure count to 0 on a
fully-successful step, incrementing it otherwise. -/
def stepOnce (success : Bool) (s : ExecState) : ExecState :=
  { stepIndex := s.stepIndex + 1,
    failures := if success then 0 else s.failures + 1 }

/-- Modelled from the spec: the loop runs another Navigator step only
while the step index is below `maxSteps` and the consecutive-failure count
is below `maxFailures`; exceeding either bound terminates the task. -/
def canContinue (g : GeneralSettingsConfig) (s : ExecState) : Bool :=
  decide (s.stepIndex < g.maxSteps) && decide (s.failures < g.maxFailures)

/-- Modelled from the spec: the state of one task run after `k` loop
iterations, starting from step 0 with no failures; `outcomes i` tells
whether the Navigator step taken at iteration `i` was fully successful.
Once the loop stops, the state stays fixed. -/
def execRun (g : GeneralSettingsConfig) (outcomes : Nat → Bool) : Nat → ExecState
  | 0 => { stepIndex := 0, failures := 0 }
  | k + 1 =>
      let s := execRun g outcomes k
      if canContinue g s then stepOnce (outcomes k) s else s

/-! ## Enhanced dropdown handling
(src/chrome-extension/src/background/browser/dom/enhanced-dropdown.ts) -/

/-- One `<option>` of a native `<select>`: its `text` and its `value`. -/
structure SelectOption where
  text : String
  value : String
deriving DecidableEq, Repr

/-- A native `<select>` element: its options in DOM order and its current
`value`. -/
structure SelectElement where
  options : List SelectOption
  value : String
deriving DecidableEq, Repr

/-- One option-like descendant node of a non-native dropdown (matched by
`[role="option"], .option, .item, .choice, li`): its `mmid` attribute (if
injected) and its `textContent`. -/
structure CustomOption where
  mmid : Option String
  text : String
deriving DecidableEq, Repr

/-- A listbox / combobox / custom dropdown: its option-like descendant
nodes in DOM order and, when a descendant `<input>` exists (combobox), the
input's current value. -/
structure CustomDropdown where
  options : List CustomOption
  inputValue : Option String
deriving DecidableEq, Repr

/-- The dropdown type resolved by `getEnhancedDropdownInfo` and passed to
the injected selection function. -/
inductive DropdownKind where
  | select
  | listbox
  | combobox
  | custom
deriving DecidableEq, Repr

/-- The page model a selection runs against: a native select or a
non-native dropdown of the given kind. -/
inductive DropdownModel where
  | native (el : SelectElement)
  | nonNative (kind : DropdownKind) (d : CustomDropdown)
deriving DecidableEq, Repr

/-- DOM events the selection dispatches: `change`/`input` (on the select
element or the combobox input) and the click on an option element. -/
inductive PageEvent where
  | change
  | input
  | click
deriving DecidableEq, Repr

/-- Observable outcome of one selection: the returned message, the page
state afterwards, the dispatched events, and whether an option was
selected (the source reports option-not-found as a returned message, not
an exception). -/
structure SelectionResult where
  message : String
  page : DropdownModel
  events : List PageEvent
  success : Bool
deriving DecidableEq, Repr

/-- JavaScript template interpolation of the identifier
(`` `${identifier}` ``): the string itself, or the decimal number. -/
def identToString : String ⊕ Int → String
  | Sum.inl s => s
  | Sum.inr i => toString i

/-- Option lookup of the native-select branch: by index
(`selectElement.options[identifier]`, undefined outside `0..length-1`) or
by trimmed text equality (`option.text.trim() === identifier`, first
match). -/
def findNativeTarget (el : SelectElement) (ident : String ⊕ Int) : Option SelectOption :=
  match ident with
  | Sum.inr i => if i < 0 then none else el.options[i.toNat]?
  | Sum.inl s => el.options.find? (fun o => jsTrim o.text == s)

/-- The enumerating not-found message of the native-select branch:
`` `オプション "${identifier}" が見つかりません。利用可能なオプション: "${availableOptions}"` ``
with the trimmed option texts joined by `", "`. -/
def nativeNotFoundMsg (el : SelectElement) (ident : String ⊕ Int) : String :=
  "オプション \"" ++ identToString ident ++
    "\" が見つかりません。利用可能なオプション: \"" ++
    String.intercalate ("\", \"") (el.options.map (fun o => jsTrim o.text)) ++ "\""

/-- The success message of the native-select branch. -/
def nativeSelectedMsg (o : SelectOption) : String :=
  "オプション \"" ++ o.text ++ "\" (値: \"" ++ o.value ++ "\") を選択しました"

/-- Embeds the `dropdownType === 'select'` branch of the injected
selection function: find the target by index or trimmed text; if absent,
return the enumerating message and leave the page untouched; otherwise set
the select's value to the target's value and dispatch `change` and `input`
only when the value actually changed. -/
def selectNative (el : SelectElement) (ident : String ⊕ Int) : SelectionResult :=
  match findNativeTarget el ident with
  | none =>
      { message := nativeNotFoundMsg el ident,
        page := DropdownModel.native el, events := [], success := false }
  | some target =>
      let previousValue := el.value
      let el1 : SelectElement := { el with value := target.value }
      { message := nativeSelectedMsg target,
        page := DropdownModel.native el1,
        events := if previousValue ≠ target.value
          then [PageEvent.change, PageEvent.input] else [],
        success := true }

/-- Regex `/^\d+$/`: non-empty and all decimal digits. -/
def isAllDigits (s : String) : Bool :=
  !s.data.isEmpty && s.data.all (fun c => c.isDigit)

/-- Option lookup of the non-native branch: for a string identifier, first
by `mmid` when the identifier is all digits, then by trimmed
`textContent`; for a number, by position among the option-like nodes
(undefined outside `0..length-1`). -/
def findCustomTarget (d : CustomDropdown) (ident : String ⊕ Int) : Option CustomOption :=
  match ident with
  | Sum.inl s =>
      let byMmid := if isAllDigits s
        then d.options.find? (fun o => o.mmid == some s) else none
      match byMmid with
      | some o => some o
      | none => d.options.find? (fun o => jsTrim o.text == s)
  | Sum.inr i => if i < 0 then none else d.options[i.toNat]?

/-- The non-enumerating not-found message of the non-native branch:
`` `オプション "${identifier}" が見つかりません` ``. -/
def customNotFoundMsg (ident : String ⊕ Int) : String :=
  "オプション \"" ++ identToString ident ++ "\" が見つかりません"

/-- The success message of the non-native branch. -/
def customSelectedMsg (o : CustomOption) : String :=
  "オプション \"" ++ jsTrim o.text ++ "\" を選択しました"

/-- Embeds the `listbox`/`combobox`/`custom` branch of the injected
selection function: find the option (mmid, then text, or by index); if
absent, return the short not-found message; otherwise click the option
and, for a combobox with a descendant input, set the input's value to the
option's trimmed text and dispatch `change` and `input` on it. -/
def selectCustom (kind : DropdownKind) (d : CustomDropdown)
    (ident : String ⊕ Int) : SelectionResult :=
  match findCustomTarget d ident with
  | none =>
      { message := customNotFoundMsg ident,
        page := DropdownModel.nonNative kind d, events := [], success := false }
  | some o =>
      if kind = DropdownKind.combobox then
        match d.inputValue with
        | some _ =>
            { message := customSelectedMsg o,
              page := DropdownModel.nonNative kind
                { d with inputValue := some (jsTrim o.text) },
              events := [PageEvent.click, PageEvent.change, PageEvent.input],
              success := true }
        | none =>
            { message := customSelectedMsg o,
              page := DropdownModel.nonNative kind d,
              events := [PageEvent.click], success := true }
      else
        { message := customSelectedMsg o,
          page := DropdownModel.nonNative kind d,
          events := [PageEvent.click], success := true }

/-- Embeds `selectEnhancedDropdownOption`'s injected function, dispatching
on the dropdown type resolved by `getEnhancedDropdownInfo` (a native
`<select>` resolves to `select`; listbox, combobox and custom widgets go
to the non-native branch). -/
def selectEnhancedDropdownOption (page : DropdownModel)
    (ident : String ⊕ Int) : SelectionResult :=
  match page with
  | DropdownModel.native el => selectNative el ident
  | DropdownModel.nonNative kind d => selectCustom kind d ident

/-! ## Dynamic option waiting (`waitForDropdownOptions`) -/

/-- The timeout rejection message
`` `タイムアウト: ${timeout}ms以内にドロップダウンオプションが読み込まれませんでした` ``. -/
def dropdownTimeoutMsg (timeout : Nat) : String :=
  "タイムアウト: " ++ toString timeout ++
    "ms以内にドロップダウンオプションが読み込まれませんでした"

/-- Embeds the polling loop of `waitForDropdownOptions`. `polls k` is what
the `k`-th `getEnhancedDropdownInfo` call yields (its option list, or a
thrown error which the loop rejects with). The loop body runs at 200 ms
intervals, so poll `k` happens at elapsed time `200 * k` (the source
re-schedules with `setTimeout(checkOptions, 200)`; the info fetch itself
is treated as instantaneous). A poll with a non-empty list resolves; then
elapsed time strictly above `timeout` rejects; otherwise the next poll is
scheduled. -/
def waitPoll {α : Type} (polls : Nat → Except String (List α)) (timeout : Nat)
    (k : Nat) : Except String (List α) :=
  match polls k with
  | Except.error e => Except.error e
  | Except.ok opts =>
      if 0 < opts.length then Except.ok opts
      else if timeout < 200 * k then Except.error (dropdownTimeoutMsg timeout)
      else waitPoll polls timeout (k + 1)
termination_by timeout / 200 + 1 - k
decreasing_by
  rename_i hk
  have hkle : k ≤ timeout / 200 :=
    (Nat.le_div_iff_mul_le (by norm_num)).mpr (by omega)
  omega

/-- Embeds `waitForDropdownOptions` (with the default `timeout = 3000`
made explicit by callers): start polling at elapsed time 0. -/
def waitForDropdownOptions {α : Type} (polls : Nat → Except String (List α))
    (timeout : Nat) : Except String (List α) :=
  waitPoll polls timeout 0

/-! ## Theorems -/

/-- C10: the token ledger is atomic on failure and preserves
`used ≤ limit`: when `used + cost > limit`, `consumeTokens` reports
`{success: false, remaining: limit - used}` and leaves the stored usage
unchanged; otherwise it adds exactly the model's cost to `used` (keeping
the limit) and reports the new remaining; `getRemainingTokens` is never
negative; `getTokenCost` is 1 for models absent from the cost table. The
ledger state is taken with no monthly reset due, matching the claim's
fixed stored state. -/
theorem tokenLedger_atomic_invariant (u : TokenUsage) (costs : String → Option Int)
    (model nextMonth now : String) :
    (u.limit < u.used + TokenUsageManager.getTokenCost costs model →
      (TokenUsageManager.consumeTokens ⟨u, false⟩ nextMonth costs model now).1
          = { success := false, remaining := u.limit - u.used } ∧
      (TokenUsageManager.consumeTokens ⟨u, false⟩ nextMonth costs model now).2
          = ⟨u, false⟩) ∧
    (u.used + TokenUsageManager.getTokenCost costs model ≤ u.limit →
      (TokenUsageManager.consumeTokens ⟨u, false⟩ nextMonth costs model now).1.success
          = true ∧
      (TokenUsageManager.consumeTokens ⟨u, false⟩ nextMonth costs model now).2.stored.used
          = u.used + TokenUsageManager.getTokenCost costs model ∧
      (TokenUsageManager.consumeTokens ⟨u, false⟩ nextMonth costs model now).2.stored.limit
          = u.limit ∧
      (TokenUsageManager.consumeTokens ⟨u, false⟩ nextMonth costs model now).1.remaining
          = u.limit - (u.used + TokenUsageManager.getTokenCost costs model)) ∧
    (u.used ≤ u.limit →
      (TokenUsageManager.consumeTokens ⟨u, false⟩ nextMonth costs model now).2.stored.used
        ≤ (TokenUsageManager.consumeTokens ⟨u, false⟩ nextMonth costs model now).2.stored.limit) ∧
    0 ≤ (TokenUsageManager.getRemainingTokens ⟨u, false⟩ nextMonth).1 ∧
    (costs model = none → TokenUsageManager.getTokenCost costs model = 1) := by
  refine ⟨?_, ?_, ?_, ?_, ?_⟩
  · intro h
    simp [TokenUsageManager.consumeTokens, TokenUsageManager.getTokenUsage, h]
  · intro h
    simp [TokenUsageManager.consumeTokens, TokenUsageManager.getTokenUsage,
      Int.not_lt.mpr h]
  · intro h
    by_cases hc : u.limit < u.used + TokenUsageManager.getTokenCost costs model
    · simp [TokenUsageManager.consumeTokens, TokenUsageManager.getTokenUsage, hc, h]
    · simp [TokenUsageManager.consumeTokens, TokenUsageManager.getTokenUsage, hc]
      omega
  · simp [TokenUsageManager.getRemainingTokens, TokenUsageManager.getTokenUsage]
  · intro h
    simp [TokenUsageManager.getTokenCost, h]

/-- Witness for C10: with 49 of 50 tokens used and a cost-5 model, the
consume fails atomically with remaining 1; with a cost-1 (unknown) model
it succeeds, moving the counter to 50 with remaining 0. -/
theorem tokenLedger_atomic_invariant_witness :
    (TokenUsageManager.consumeTokens
        ⟨⟨49, 50, "r", "l"⟩, false⟩ "n" (fun _ => some 5) "m" "t").1
      = { success := false, remaining := 1 } ∧
    (TokenUsageManager.consumeTokens
        ⟨⟨49, 50, "r", "l"⟩, false⟩ "n" (fun _ => none) "m" "t").2.stored.used = 50 := by
  constructor
  · have h := tokenLedger_atomic_invariant ⟨49, 50, "r", "l"⟩ (fun _ => some 5)
      "m" "n" "t"
    have h1 := (h.1 (by decide)).1
    simpa using h1
  · have h := tokenLedger_atomic_invariant ⟨49, 50, "r", "l"⟩ (fun _ => none)
      "m" "n" "t"
    have h2 := (h.2.1 (by decide)).2.1
    simpa using h2

/-- C1: `BaseAgent.invoke` calls `TokenUsageManager.consumeTokens` exactly
once on every success path (structured-output and freeform
JSON-extraction alike) and zero times on every failure path
(insufficient tokens, structured parse failure, JSON-extraction failure,
validation failure, non-string content, abort, auth or any other thrown
provider error). -/
theorem invoke_consumes_iff_success {α : Type} (ctx : InvokeContext)
    (modelName agentId : String) (costs : String → Option Int)
    (structured : Bool) (ov : Option String) (beh : ModelBehavior α)
    (s : LedgerState) (nextMonth now : String) :
    (BaseAgent.invoke ctx modelName agentId costs structured ov beh
        s nextMonth now).consumeCalls
      = if (BaseAgent.invoke ctx modelName agentId costs structured ov beh
            s nextMonth now).result.isOk then 1 else 0 := by
  obtain ⟨sr, fr⟩ := beh
  cases structured <;> cases sr <;> cases fr <;>
    simp only [BaseAgent.invoke] <;>
    repeat' split <;>
    simp [InvokeResult.isOk]

/-- C2: when `TokenUsageManager.hasTokens` is false, `invoke` fails with
the localized insufficient-tokens error (Japanese for a 'ja' context
language, English otherwise) and never calls the chat model; when it is
true, the chat model is invoked exactly once. -/
theorem invoke_token_gate {α : Type} (ctx : InvokeContext)
    (modelName agentId : String) (costs : String → Option Int)
    (structured : Bool) (ov : Option String) (beh : ModelBehavior α)
    (s : LedgerState) (nextMonth now : String) :
    ((TokenUsageManager.hasTokens s nextMonth costs modelName).1 = false →
      (BaseAgent.invoke ctx modelName agentId costs structured ov beh
          s nextMonth now).result
        = InvokeResult.insufficient
            (insufficientTokensMessage ctx.language
              (TokenUsageManager.getRemainingTokens
                (TokenUsageManager.hasTokens s nextMonth costs modelName).2 nextMonth).1
              (TokenUsageManager.getTokenCost costs modelName)) ∧
      (BaseAgent.invoke ctx modelName agentId costs structured ov beh
          s nextMonth now).modelCalls = 0) ∧
    ((TokenUsageManager.hasTokens s nextMonth costs modelName).1 = true →
      (BaseAgent.invoke ctx modelName agentId costs structured ov beh
          s nextMonth now).modelCalls = 1) ∧
    (∀ r c : Int, insufficientTokensMessage DetectedLanguage.ja r c
      = "トークンが不足しています。残り: " ++ toString r ++ "、必要: " ++
          toString c ++ "。来月まで待つか、プランをアップグレードしてください。") ∧
    (∀ (l : DetectedLanguage) (r c : Int), l ≠ DetectedLanguage.ja →
      insufficientTokensMessage l r c
        = "Insufficient tokens. Remaining: " ++ toString r ++ ", Required: " ++
            toString c ++ ". Please wait until next month or upgrade your plan.") := by
  refine ⟨?_, ?_, ?_, ?_⟩
  · intro h
    simp [BaseAgent.invoke, h]
  · intro h
    obtain ⟨sr, fr⟩ := beh
    cases structured <;> cases sr <;> cases fr <;>
      simp only [BaseAgent.invoke, h] <;>
      repeat' split <;>
      simp_all
  · intro r c
    simp [insufficientTokensMessage]
  · intro l r c hl
    simp [insufficientTokensMessage, hl]

/-- Witness for C2: with the ledger exhausted (50 of 50 used) no model
call happens; with a fresh ledger exactly one model call happens. -/
theorem invoke_token_gate_witness :
    (BaseAgent.invoke ⟨DetectedLanguage.ja, "sig"⟩ "m" "a" (fun _ => none) true none
        (⟨StructuredOutcome.parsedOk 1, FreeformOutcome.nonString⟩ : ModelBehavior Nat)
        ⟨⟨50, 50, "r", "l"⟩, false⟩ "n" "t").modelCalls = 0 ∧
    (BaseAgent.invoke ⟨DetectedLanguage.ja, "sig"⟩ "m" "a" (fun _ => none) true none
        (⟨StructuredOutcome.parsedOk 1, FreeformOutcome.nonString⟩ : ModelBehavior Nat)
        ⟨⟨0, 50, "r", "l"⟩, false⟩ "n" "t").modelCalls = 1 := by
  constructor
  · exact ((invoke_token_gate ⟨DetectedLanguage.ja, "sig"⟩ "m" "a" (fun _ => none)
      true none ⟨StructuredOutcome.parsedOk 1, FreeformOutcome.nonString⟩
      ⟨⟨50, 50, "r", "l"⟩, false⟩ "n" "t").1 (by decide)).2
  · exact (invoke_token_gate ⟨DetectedLanguage.ja, "sig"⟩ "m" "a" (fun _ => none)
      true none ⟨StructuredOutcome.parsedOk 1, FreeformOutcome.nonString⟩
      ⟨⟨0, 50, "r", "l"⟩, false⟩ "n" "t").2.1 (by decide)

/-- Counterexample to C3: a structured-output parse failure whose freeform
JSON-extraction alternative would succeed (the same behavior invoked
without structured output parses to 7) is nevertheless surfaced as an
error after a single model call — `invoke` performs no fallback to the
alternate parsing path. -/
theorem invoke_no_parse_fallback_cex :
    (BaseAgent.invoke ⟨DetectedLanguage.en, "sig"⟩ "m" "a" (fun _ => none) true none
        (⟨StructuredOutcome.parsedNull,
          FreeformOutcome.strContent ("raw")
            (ExtractOutcome.json (ValidateOutcome.parsed 7))⟩ : ModelBehavior Nat)
        ⟨⟨0, 50, "r", "l"⟩, false⟩ "n" "t").result
      = InvokeResult.error ErrKind.other
          (structuredFailMsg ("m")
            (jsErrorString ("Could not parse response with structured output"))) ∧
    (BaseAgent.invoke ⟨DetectedLanguage.en, "sig"⟩ "m" "a" (fun _ => none) true none
        (⟨StructuredOutcome.parsedNull,
          FreeformOutcome.strContent ("raw")
            (ExtractOutcome.json (ValidateOutcome.parsed 7))⟩ : ModelBehavior Nat)
        ⟨⟨0, 50, "r", "l"⟩, false⟩ "n" "t").modelCalls = 1 ∧
    (BaseAgent.invoke ⟨DetectedLanguage.en, "sig"⟩ "m" "a" (fun _ => none) false none
        (⟨StructuredOutcome.parsedNull,
          FreeformOutcome.strContent ("raw")
            (ExtractOutcome.json (ValidateOutcome.parsed 7))⟩ : ModelBehavior Nat)
        ⟨⟨0, 50, "r", "l"⟩, false⟩ "n" "t").result = InvokeResult.ok 7 := by
  refine ⟨?_, ?_, ?_⟩ <;> rfl

/-- C3 (amended): parse failures are never retried and never fall back to
the alternate parsing path: `invoke` makes at most one model call, a
structured-output parse failure is surfaced immediately as the wrapped
structured-output error, and a freeform JSON-extraction failure is
surfaced immediately as the extraction error. -/
theorem invoke_no_parse_fallback {α : Type} (ctx : InvokeContext)
    (modelName agentId : String) (costs : String → Option Int)
    (structured : Bool) (ov : Option String) (beh : ModelBehavior α)
    (s : LedgerState) (nextMonth now : String) :
    (BaseAgent.invoke ctx modelName agentId costs structured ov beh
        s nextMonth now).modelCalls ≤ 1 ∧
    ((TokenUsageManager.hasTokens s nextMonth costs modelName).1 = true →
      structured = true → beh.structuredResult = StructuredOutcome.parsedNull →
      (BaseAgent.invoke ctx modelName agentId costs structured ov beh
          s nextMonth now).result
        = InvokeResult.error ErrKind.other
            (structuredFailMsg modelName
              (jsErrorString ("Could not parse response with structured output")))) ∧
    ((TokenUsageManager.hasTokens s nextMonth costs modelName).1 = true →
      structured = false →
      ∀ (raw m : String),
        beh.freeformResult = FreeformOutcome.strContent raw (ExtractOutcome.throws m) →
        (BaseAgent.invoke ctx modelName agentId costs structured ov beh
            s nextMonth now).result
          = InvokeResult.error ErrKind.other
              ("Failed to extract JSON from response: " ++ jsErrorString m)) := by
  refine ⟨?_, ?_, ?_⟩
  · obtain ⟨sr, fr⟩ := beh
    cases structured <;> cases sr <;> cases fr <;>
      simp only [BaseAgent.invoke] <;>
      repeat' split <;>
      simp_all
  · intro h hs hb
    subst hs
    simp [BaseAgent.invoke, h, hb]
  · intro h hs raw m hb
    subst hs
    simp [BaseAgent.invoke, h, hb]

/-- Witness for C3 (amended): a structured parse failure and a freeform
extraction failure each surface the respective error immediately. -/
theorem invoke_no_parse_fallback_witness :
    (BaseAgent.invoke ⟨DetectedLanguage.en, "sig"⟩ "m2" "a" (fun _ => none) true none
        (⟨StructuredOutcome.parsedNull, FreeformOutcome.nonString⟩ : ModelBehavior Nat)
        ⟨⟨0, 50, "r", "l"⟩, false⟩ "n" "t").result
      = InvokeResult.error ErrKind.other
          (structuredFailMsg ("m2")
            (jsErrorString ("Could not parse response with structured output"))) ∧
    (BaseAgent.invoke ⟨DetectedLanguage.en, "sig"⟩ "m2" "a" (fun _ => none) false none
        (⟨StructuredOutcome.parsedNull,
          FreeformOutcome.strContent ("x") (ExtractOutcome.throws ("bad json"))⟩
          : ModelBehavior Nat)
        ⟨⟨0, 50, "r", "l"⟩, false⟩ "n" "t").result
      = InvokeResult.error ErrKind.other
          ("Failed to extract JSON from response: " ++ jsErrorString ("bad json")) := by
  constructor
  · exact (invoke_no_parse_fallback ⟨DetectedLanguage.en, "sig"⟩ "m2" "a"
      (fun _ => none) true none
      ⟨StructuredOutcome.parsedNull, FreeformOutcome.nonString⟩
      ⟨⟨0, 50, "r", "l"⟩, false⟩ "n" "t").2.1 (by decide) rfl rfl
  · exact (invoke_no_parse_fallback ⟨DetectedLanguage.en, "sig"⟩ "m2" "a"
      (fun _ => none) false none
      ⟨StructuredOutcome.parsedNull,
        FreeformOutcome.strContent ("x") (ExtractOutcome.throws ("bad json"))⟩
      ⟨⟨0, 50, "r", "l"⟩, false⟩ "n" "t").2.2 (by decide) rfl ("x") ("bad json") rfl

/-- C4: every model call `invoke` makes carries the context's abort signal
(the source passes `signal: this.context.controller.signal`; the
hypothesis records that `callOptions` — which the source spreads after the
signal — contains no overriding `signal` entry, as at all construction
sites in the repository). When the signal aborts the call mid-flight, the
thrown error propagates unchanged (same classification, same message),
no tokens are consumed, no second model call is made, and
`PlannerAgent.execute` rethrows it as `RequestCancelledError` instead of
returning a recoverable step-failure output. -/
theorem invoke_cancellation_propagates {α : Type} (ctx : InvokeContext)
    (modelName agentId : String) (costs : String → Option Int)
    (structured : Bool) (beh : ModelBehavior α)
    (s : LedgerState) (nextMonth now msg : String)
    (hht : (TokenUsageManager.hasTokens s nextMonth costs modelName).1 = true)
    (hab : (structured = true ∧
            beh.structuredResult = StructuredOutcome.thrown ErrKind.aborted msg) ∨
           (structured = false ∧
            beh.freeformResult = FreeformOutcome.thrown ErrKind.aborted msg)) :
    (BaseAgent.invoke ctx modelName agentId costs structured none beh
        s nextMonth now).result = InvokeResult.error ErrKind.aborted msg ∧
    (BaseAgent.invoke ctx modelName agentId costs structured none beh
        s nextMonth now).consumeCalls = 0 ∧
    (BaseAgent.invoke ctx modelName agentId costs structured none beh
        s nextMonth now).modelCalls = 1 ∧
    (BaseAgent.invoke ctx modelName agentId costs structured none beh
        s nextMonth now).signalsUsed = [ctx.signal] ∧
    plannerHandle (BaseAgent.invoke ctx modelName agentId costs structured none beh
        s nextMonth now).result = AgentExecOutcome.thrownCancelled msg := by
  rcases hab with ⟨hs, hb⟩ | ⟨hs, hb⟩ <;> subst hs <;>
    simp [BaseAgent.invoke, plannerHandle, hht, hb]

/-- Witness for C4: an aborted structured call with tokens available
propagates `AbortError` unchanged, consumes nothing, and the planner
rethrows it as the cancellation error. -/
theorem invoke_cancellation_propagates_witness :
    (BaseAgent.invoke ⟨DetectedLanguage.en, "sigX"⟩ "m" "a" (fun _ => none) true none
        (⟨StructuredOutcome.thrown ErrKind.aborted ("AbortError"),
          FreeformOutcome.nonString⟩ : ModelBehavior Nat)
        ⟨⟨0, 50, "r", "l"⟩, false⟩ "n" "t").result
      = InvokeResult.error ErrKind.aborted ("AbortError") ∧
    (BaseAgent.invoke ⟨DetectedLanguage.en, "sigX"⟩ "m" "a" (fun _ => none) true none
        (⟨StructuredOutcome.thrown ErrKind.aborted ("AbortError"),
          FreeformOutcome.nonString⟩ : ModelBehavior Nat)
        ⟨⟨0, 50, "r", "l"⟩, false⟩ "n" "t").consumeCalls = 0 ∧
    plannerHandle (BaseAgent.invoke ⟨DetectedLanguage.en, "sigX"⟩ "m" "a"
        (fun _ => none) true none
        (⟨StructuredOutcome.thrown ErrKind.aborted ("AbortError"),
          FreeformOutcome.nonString⟩ : ModelBehavior Nat)
        ⟨⟨0, 50, "r", "l"⟩, false⟩ "n" "t").result
      = AgentExecOutcome.thrownCancelled ("AbortError") := by
  have h := invoke_cancellation_propagates ⟨DetectedLanguage.en, "sigX"⟩ "m" "a"
    (fun _ => none) true
    (⟨StructuredOutcome.thrown ErrKind.aborted ("AbortError"),
      FreeformOutcome.nonString⟩ : ModelBehavior Nat)
    ⟨⟨0, 50, "r", "l"⟩, false⟩ "n" "t" ("AbortError")
    (by decide) (Or.inl ⟨rfl, rfl⟩)
  exact ⟨h.1, h.2.1, h.2.2.2.2⟩

/-- Helper for C5: every reachable executor state keeps the step index at
most `maxSteps` and the failure count at most `maxFailures`. -/
theorem execRun_bounds (g : GeneralSettingsConfig) (outcomes : Nat → Bool) :
    ∀ k : Nat, (execRun g outcomes k).stepIndex ≤ g.maxSteps ∧
      (execRun g outcomes k).failures ≤ g.maxFailures
  | 0 => by
      simp [execRun]
  | k + 1 => by
      have ih := execRun_bounds g outcomes k
      simp only [execRun]
      split
      · rename_i h
        simp only [canContinue, Bool.and_eq_true, decide_eq_true_eq] at h
        cases ho : outcomes k <;> simp [stepOnce, ho] <;> omega
      · exact ih

/-- C5: within one task run the step index is monotone, advances by
exactly 1 per completed Navigator step (and is frozen once the loop
stops), never exceeds `maxSteps`; the consecutive-failure count resets to
0 after any fully-successful step and never exceeds `maxFailures`; the
defaults are `maxSteps = 100` and `maxFailures = 3`. -/
theorem executor_step_failure_invariants (g : GeneralSettingsConfig)
    (outcomes : Nat → Bool) (k : Nat) :
    (execRun g outcomes (k + 1)).stepIndex
      = (execRun g outcomes k).stepIndex
        + (if canContinue g (execRun g outcomes k) then 1 else 0) ∧
    (execRun g outcomes k).stepIndex ≤ g.maxSteps ∧
    (execRun g outcomes k).failures ≤ g.maxFailures ∧
    (canContinue g (execRun g outcomes k) = true → outcomes k = true →
      (execRun g outcomes (k + 1)).failures = 0) ∧
    DEFAULT_GENERAL_SETTINGS.maxSteps = 100 ∧
    DEFAULT_GENERAL_SETTINGS.maxFailures = 3 := by
  refine ⟨?_, (execRun_bounds g outcomes k).1, (execRun_bounds g outcomes k).2,
    ?_, rfl, rfl⟩
  · simp only [execRun]
    split <;> simp [stepOnce]
  · intro hc ho
    simp [execRun, hc, stepOnce, ho]

/-- Witness for C5: with the default settings and a failure on every step,
after 5 iterations the run is frozen at step 3 with 3 consecutive
failures — within both bounds — and a successful step from the start state
resets the failure count. -/
theorem executor_step_failure_invariants_witness :
    (execRun DEFAULT_GENERAL_SETTINGS (fun _ => false) 5).stepIndex
        ≤ DEFAULT_GENERAL_SETTINGS.maxSteps ∧
    (execRun DEFAULT_GENERAL_SETTINGS (fun _ => false) 5).failures
        ≤ DEFAULT_GENERAL_SETTINGS.maxFailures ∧
    (execRun DEFAULT_GENERAL_SETTINGS (fun _ => true) 1).failures = 0 := by
  refine ⟨(executor_step_failure_invariants DEFAULT_GENERAL_SETTINGS
      (fun _ => false) 5).2.1,
    (executor_step_failure_invariants DEFAULT_GENERAL_SETTINGS
      (fun _ => false) 5).2.2.1,
    (executor_step_failure_invariants DEFAULT_GENERAL_SETTINGS
      (fun _ => true) 0).2.2.2.1 (by decide) rfl⟩

/-- Helper: when the filter of a list by `p` is the singleton `[o]`,
`find?` returns exactly `o` (the unique match is the first match). -/
theorem filter_singleton_find? {α : Type} (p : α → Bool) (o : α) :
    ∀ l : List α, l.filter p = [o] → l.find? p = some o := by
  intro l
  induction l with
  | nil => simp
  | cons a t ih =>
      intro h
      cases hp : p a <;>
        simp only [List.filter_cons, List.find?_cons, hp, cond_false, cond_true,
          if_true, if_false, Bool.false_eq_true, ite_false, ite_true] at h ⊢
      · exact ih h
      · simp only [List.cons_eq_cons] at h
        simp [h.1]

/-- Counterexample to C6: selecting by text `Tokyo` on a native select
whose sole option (text `Tokyo`, value `tokyo`) is already the current
value succeeds and keeps the value, but dispatches no `change`/`input`
events — the source only dispatches them when the value actually
changed. -/
theorem select_native_events_cex :
    ((⟨[⟨"Tokyo", "tokyo"⟩], "tokyo"⟩ : SelectElement).options.filter
        (fun o => jsTrim o.text == "Tokyo")).length = 1 ∧
    (selectEnhancedDropdownOption
        (DropdownModel.native ⟨[⟨"Tokyo", "tokyo"⟩], "tokyo"⟩)
        (Sum.inl ("Tokyo"))).success = true ∧
    (selectEnhancedDropdownOption
        (DropdownModel.native ⟨[⟨"Tokyo", "tokyo"⟩], "tokyo"⟩)
        (Sum.inl ("Tokyo"))).page
      = DropdownModel.native ⟨[⟨"Tokyo", "tokyo"⟩], "tokyo"⟩ ∧
    (selectEnhancedDropdownOption
        (DropdownModel.native ⟨[⟨"Tokyo", "tokyo"⟩], "tokyo"⟩)
        (Sum.inl ("Tokyo"))).events ≠ [PageEvent.change, PageEvent.input] := by
  refine ⟨?_, ?_, ?_, ?_⟩ <;> decide

/-- C6 (amended): on a native select, when the trimmed text of exactly one
option equals the identifier, the selection succeeds, the select's value
afterwards equals that option's value, and `change`/`input` are dispatched
exactly when the value actually changed (none when the option was already
selected); on a combobox, a successful selection additionally syncs the
visible text input to the chosen option's trimmed text and dispatches
`change`/`input` on it. -/
theorem select_native_by_text (el : SelectElement) (s : String) (o : SelectOption)
    (h : el.options.filter (fun o2 => jsTrim o2.text == s) = [o]) :
    (selectEnhancedDropdownOption (DropdownModel.native el) (Sum.inl s)).success
        = true ∧
    (selectEnhancedDropdownOption (DropdownModel.native el) (Sum.inl s)).page
        = DropdownModel.native { el with value := o.value } ∧
    (selectEnhancedDropdownOption (DropdownModel.native el) (Sum.inl s)).events
        = (if el.value ≠ o.value then [PageEvent.change, PageEvent.input] else []) ∧
    (selectEnhancedDropdownOption (DropdownModel.native el) (Sum.inl s)).message
        = nativeSelectedMsg o ∧
    (∀ (d : CustomDropdown) (iv : String) (ident : String ⊕ Int) (o2 : CustomOption),
      d.inputValue = some iv → findCustomTarget d ident = some o2 →
      (selectEnhancedDropdownOption
          (DropdownModel.nonNative DropdownKind.combobox d) ident).page
        = DropdownModel.nonNative DropdownKind.combobox
            { d with inputValue := some (jsTrim o2.text) } ∧
      (selectEnhancedDropdownOption
          (DropdownModel.nonNative DropdownKind.combobox d) ident).events
        = [PageEvent.click, PageEvent.change, PageEvent.input]) := by
  have hf : findNativeTarget el (Sum.inl s) = some o := by
    simp only [findNativeTarget]
    exact filter_singleton_find? _ o el.options h
  refine ⟨?_, ?_, ?_, ?_, ?_⟩
  · simp [selectEnhancedDropdownOption, selectNative, hf]
  · simp [selectEnhancedDropdownOption, selectNative, hf]
  · simp [selectEnhancedDropdownOption, selectNative, hf]
  · simp [selectEnhancedDropdownOption, selectNative, hf]
  · intro d iv ident o2 hiv hft
    constructor <;> simp [selectEnhancedDropdownOption, selectCustom, hft, hiv]

/-- Witness for C6 (amended): selecting `Osaka` on a select currently on
`t1` moves the value to `t2` and dispatches `change` then `input`; a
combobox selection syncs its input to the option text. -/
theorem select_native_by_text_witness :
    (selectEnhancedDropdownOption
        (DropdownModel.native ⟨[⟨"Tokyo", "t1"⟩, ⟨"Osaka", "t2"⟩], "t1"⟩)
        (Sum.inl ("Osaka"))).page
      = DropdownModel.native ⟨[⟨"Tokyo", "t1"⟩, ⟨"Osaka", "t2"⟩], "t2"⟩ ∧
    (selectEnhancedDropdownOption
        (DropdownModel.native ⟨[⟨"Tokyo", "t1"⟩, ⟨"Osaka", "t2"⟩], "t1"⟩)
        (Sum.inl ("Osaka"))).events = [PageEvent.change, PageEvent.input] ∧
    (selectEnhancedDropdownOption
        (DropdownModel.nonNative DropdownKind.combobox ⟨[⟨some ("7"), "Red"⟩], some ("old")⟩)
        (Sum.inl ("Red"))).page
      = DropdownModel.nonNative DropdownKind.combobox
          ⟨[⟨some ("7"), "Red"⟩], some ("Red")⟩ := by
  have h := select_native_by_text ⟨[⟨"Tokyo", "t1"⟩, ⟨"Osaka", "t2"⟩], "t1"⟩
    ("Osaka") ⟨"Osaka", "t2"⟩ (by decide)
  refine ⟨?_, ?_, ?_⟩
  · simpa using h.2.1
  · have he := h.2.2.1
    simpa using he
  · have hc := h.2.2.2.2 ⟨[⟨some ("7"), "Red"⟩], some ("old")⟩ ("old")
      (Sum.inl ("Red")) ⟨some ("7"), "Red"⟩ rfl (by decide)
    simpa using hc.1

/-- Counterexample to C7: a listbox dropdown with options
`Tokyo`/`Osaka`/`Kyoto`, selected by the out-of-range index 5, fails with
the short not-found message and unchanged page, but the message does not
enumerate the available option texts (none of them even occurs in it) —
only the native-select branch enumerates. -/
theorem dropdown_notfound_enumeration_cex :
    (selectEnhancedDropdownOption
        (DropdownModel.nonNative DropdownKind.listbox
          ⟨[⟨none, "Tokyo"⟩, ⟨none, "Osaka"⟩, ⟨none, "Kyoto"⟩], none⟩)
        (Sum.inr 5)).success = false ∧
    (selectEnhancedDropdownOption
        (DropdownModel.nonNative DropdownKind.listbox
          ⟨[⟨none, "Tokyo"⟩, ⟨none, "Osaka"⟩, ⟨none, "Kyoto"⟩], none⟩)
        (Sum.inr 5)).message = "オプション \"5\" が見つかりません" ∧
    (selectEnhancedDropdownOption
        (DropdownModel.nonNative DropdownKind.listbox
          ⟨[⟨none, "Tokyo"⟩, ⟨none, "Osaka"⟩, ⟨none, "Kyoto"⟩], none⟩)
        (Sum.inr 5)).page
      = DropdownModel.nonNative DropdownKind.listbox
          ⟨[⟨none, "Tokyo"⟩, ⟨none, "Osaka"⟩, ⟨none, "Kyoto"⟩], none⟩ ∧
    (selectEnhancedDropdownOption
        (DropdownModel.nonNative DropdownKind.listbox
          ⟨[⟨none, "Tokyo"⟩, ⟨none, "Osaka"⟩, ⟨none, "Kyoto"⟩], none⟩)
        (Sum.inr 5)).events = [] ∧
    ¬ List.IsInfix (String.data ("Tokyo"))
      (selectEnhancedDropdownOption
        (DropdownModel.nonNative DropdownKind.listbox
          ⟨[⟨none, "Tokyo"⟩, ⟨none, "Osaka"⟩, ⟨none, "Kyoto"⟩], none⟩)
        (Sum.inr 5)).message.data ∧
    ¬ List.IsInfix (String.data ("Osaka"))
      (selectEnhancedDropdownOption
        (DropdownModel.nonNative DropdownKind.listbox
          ⟨[⟨none, "Tokyo"⟩, ⟨none, "Osaka"⟩, ⟨none, "Kyoto"⟩], none⟩)
        (Sum.inr 5)).message.data ∧
    ¬ List.IsInfix (String.data ("Kyoto"))
      (selectEnhancedDropdownOption
        (DropdownModel.nonNative DropdownKind.listbox
          ⟨[⟨none, "Tokyo"⟩, ⟨none, "Osaka"⟩, ⟨none, "Kyoto"⟩], none⟩)
        (Sum.inr 5)).message.data := by
  refine ⟨?_, ?_, ?_, ?_, ?_, ?_, ?_⟩ <;> decide

/-- C7 (amended): when no option matches the identifier, the selection
fails with an option-not-found message and unchanged page state in every
branch, but only the native-select branch enumerates the dropdown's
available option texts; the listbox/combobox/custom branch reports only
the identifier. A numeric index outside `0..length-1` matches no option
of a native select. -/
theorem dropdown_notfound_behavior :
    (∀ (el : SelectElement) (ident : String ⊕ Int),
      findNativeTarget el ident = none →
      (selectEnhancedDropdownOption (DropdownModel.native el) ident).success
          = false ∧
      (selectEnhancedDropdownOption (DropdownModel.native el) ident).message
          = nativeNotFoundMsg el ident ∧
      (selectEnhancedDropdownOption (DropdownModel.native el) ident).page
          = DropdownModel.native el ∧
      (selectEnhancedDropdownOption (DropdownModel.native el) ident).events = []) ∧
    (∀ (el : SelectElement) (i : Int),
      i < 0 ∨ (el.options.length : Int) ≤ i →
      findNativeTarget el (Sum.inr i) = none) ∧
    (∀ (kind : DropdownKind) (d : CustomDropdown) (ident : String ⊕ Int),
      findCustomTarget d ident = none →
      (selectEnhancedDropdownOption (DropdownModel.nonNative kind d) ident).success
          = false ∧
      (selectEnhancedDropdownOption (DropdownModel.nonNative kind d) ident).message
          = customNotFoundMsg ident ∧
      (selectEnhancedDropdownOption (DropdownModel.nonNative kind d) ident).page
          = DropdownModel.nonNative kind d ∧
      (selectEnhancedDropdownOption (DropdownModel.nonNative kind d) ident).events
          = []) := by
  refine ⟨?_, ?_, ?_⟩
  · intro el ident hf
    simp [selectEnhancedDropdownOption, selectNative, hf]
  · intro el i hi
    simp only [findNativeTarget]
    by_cases h0 : i < 0
    · simp [h0]
    · have hlen : el.options.length ≤ i.toNat := by omega
      simp [h0, List.getElem?_eq_none hlen]
  · intro kind d ident hf
    simp [selectEnhancedDropdownOption, selectCustom, hf]

/-- Witness for C7 (amended): selecting index 5 on a three-option native
select fails with the message enumerating all three option texts, while
the same miss on a listbox reports only the identifier; the page is
unchanged in both. -/
theorem dropdown_notfound_behavior_witness :
    (selectEnhancedDropdownOption
        (DropdownModel.native
          ⟨[⟨"Tokyo", "1"⟩, ⟨"Osaka", "2"⟩, ⟨"Kyoto", "3"⟩], "1"⟩)
        (Sum.inr 5)).message
      = "オプション \"5\" が見つかりません。利用可能なオプション: \"Tokyo\", \"Osaka\", \"Kyoto\"" ∧
    (selectEnhancedDropdownOption
        (DropdownModel.native
          ⟨[⟨"Tokyo", "1"⟩, ⟨"Osaka", "2"⟩, ⟨"Kyoto", "3"⟩], "1"⟩)
        (Sum.inr 5)).page
      = DropdownModel.native
          ⟨[⟨"Tokyo", "1"⟩, ⟨"Osaka", "2"⟩, ⟨"Kyoto", "3"⟩], "1"⟩ ∧
    (selectEnhancedDropdownOption
        (DropdownModel.nonNative DropdownKind.custom ⟨[⟨none, "Tokyo"⟩], none⟩)
        (Sum.inl ("Nara"))).message = "オプション \"Nara\" が見つかりません" := by
  have h1 := dropdown_notfound_behavior.1
    ⟨[⟨"Tokyo", "1"⟩, ⟨"Osaka", "2"⟩, ⟨"Kyoto", "3"⟩], "1"⟩ (Sum.inr 5)
    (dropdown_notfound_behavior.2.1
      ⟨[⟨"Tokyo", "1"⟩, ⟨"Osaka", "2"⟩, ⟨"Kyoto", "3"⟩], "1"⟩ 5
      (Or.inr (by norm_num)))
  have h2 := dropdown_notfound_behavior.2.2 DropdownKind.custom
    ⟨[⟨none, "Tokyo"⟩], none⟩ (Sum.inl ("Nara")) (by decide)
  refine ⟨?_, h1.2.2.1, ?_⟩
  · rw [h1.2.1]
    decide
  · rw [h2.2.1]
    decide

/-- Helper for C8: if every poll strictly before `j` sees an empty list
while still within the timeout, and poll `j` sees a non-empty list, the
loop resolves with poll `j`'s list from any start at or before `j`. -/
theorem waitPoll_resolves {α : Type} (polls : Nat → Except String (List α))
    (timeout j : Nat) (l : List α) (hj : polls j = Except.ok l) (hl : 0 < l.length)
    (hb : ∀ i, i < j → polls i = Except.ok [] ∧ 200 * i ≤ timeout) :
    ∀ n k, k + n = j → waitPoll polls timeout k = Except.ok l := by
  intro n
  induction n with
  | zero =>
      intro k hk
      have hkj : k = j := by omega
      subst hkj
      unfold waitPoll
      rw [hj]
      simp [hl]
  | succ m ih =>
      intro k hk
      have hkj : k < j := by omega
      obtain ⟨hpk, htk⟩ := hb k hkj
      unfold waitPoll
      rw [hpk]
      have hnt : ¬ timeout < 200 * k := by omega
      simp only [List.length_nil, lt_irrefl, if_false, hnt, ite_false]
      exact ih (k + 1) (by omega)

/-- Helper for C8: if every poll up to `timeout / 200 + 1` sees an empty
list, the loop rejects with the timeout message (poll `timeout / 200 + 1`
is the first whose elapsed time `200 * k` strictly exceeds the timeout). -/
theorem waitPoll_timesOut {α : Type} (polls : Nat → Except String (List α))
    (timeout : Nat)
    (hall : ∀ k, k ≤ timeout / 200 + 1 → polls k = Except.ok ([] : List α)) :
    ∀ n k, k + n = timeout / 200 + 1 →
      waitPoll polls timeout k = Except.error (dropdownTimeoutMsg timeout) := by
  intro n
  induction n with
  | zero =>
      intro k hk
      have hke : k = timeout / 200 + 1 := by omega
      unfold waitPoll
      rw [hall k (by omega)]
      have hlt : timeout < 200 * k := by omega
      simp [hlt]
  | succ m ih =>
      intro k hk
      unfold waitPoll
      rw [hall k (by omega)]
      by_cases hlt : timeout < 200 * k
      · simp [hlt]
      · simp only [List.length_nil, lt_irrefl, if_false, hlt, ite_false]
        exact ih (k + 1) (by omega)

/-- C8: `waitForDropdownOptions` polls at a fixed 200 ms cadence (poll `k`
at elapsed time `200 * k`), resolves with the option list of the first
poll that observes a non-empty list, and — when every poll within the
window keeps seeing an empty list — rejects with the timeout message at
the first poll whose elapsed time exceeds the timeout, so the promise
always settles after at most `timeout / 200 + 2` polls. -/
theorem waitForDropdownOptions_settles {α : Type}
    (polls : Nat → Except String (List α)) (timeout j : Nat) (l : List α) :
    ((∀ i, i < j → polls i = Except.ok [] ∧ 200 * i ≤ timeout) →
      polls j = Except.ok l → 0 < l.length →
      waitForDropdownOptions polls timeout = Except.ok l) ∧
    ((∀ k, k ≤ timeout / 200 + 1 → polls k = Except.ok ([] : List α)) →
      waitForDropdownOptions polls timeout
        = Except.error (dropdownTimeoutMsg timeout)) := by
  constructor
  · intro hb hj hl
    exact waitPoll_resolves polls timeout j l hj hl hb j 0 (by omega)
  · intro hall
    exact waitPoll_timesOut polls timeout hall (timeout / 200 + 1) 0 (by omega)

/-- Witness for C8: a dropdown whose options appear at the third poll
(400 ms) resolves with them inside a 1000 ms timeout, and a dropdown that
never produces options rejects with the 500 ms timeout message. -/
theorem waitForDropdownOptions_settles_witness :
    waitForDropdownOptions
        (fun k => if k = 2 then Except.ok [1] else Except.ok ([] : List Nat)) 1000
      = Except.ok [1] ∧
    waitForDropdownOptions (fun _ => Except.ok ([] : List Nat)) 500
      = Except.error (dropdownTimeoutMsg 500) := by
  constructor
  · exact (waitForDropdownOptions_settles
      (fun k => if k = 2 then Except.ok [1] else Except.ok ([] : List Nat))
      1000 2 [1]).1
      (by
        intro i hi
        interval_cases i <;> exact ⟨rfl, by norm_num⟩)
      (by simp) (by norm_num)
  · exact (waitForDropdownOptions_settles
      (fun _ => Except.ok ([] : List Nat)) 500 0 []).2 (fun k _ => rfl)

/-- Helper for C9: the JavaScript trim of a character list is empty
exactly when every character is whitespace. -/
theorem jsTrimData_eq_nil_iff (l : List Char) :
    jsTrimData l = [] ↔ ∀ c ∈ l, jsWhitespace c := by
  unfold jsTrimData
  rw [List.reverse_eq_nil_iff, List.dropWhile_eq_nil_iff]
  simp only [List.mem_reverse]
  constructor
  · intro h c hc
    rw [← List.takeWhile_append_dropWhile (p := jsWhitespace) (l := l)] at hc
    rcases List.mem_append.mp hc with h1 | h2
    · exact List.mem_takeWhile_imp h1
    · exact h c h2
  · intro h c hc
    exact h c ((List.dropWhile_sublist _).subset hc)

/-- Helper for C9: a non-empty string has positive UTF-16 length. -/
theorem utf16Len_pos (t : String) (h : t.data ≠ []) : 0 < utf16Len t := by
  unfold utf16Len
  cases hl : t.data with
  | nil => exact absurd hl h
  | cons a l =>
      have ha : 0 < utf16Units a := by
        unfold utf16Units
        split <;> omega
      simp only [List.map_cons, List.sum_cons]
      omega

/-- Helper for C9: with a positive denominator, the rational ratio exceeds
one tenth exactly when ten times the numerator exceeds the denominator. -/
theorem ratio_gt_tenth_iff (a b : ℕ) (hb : 0 < b) :
    ((a : ℚ) / (b : ℚ) > (1 : ℚ) / 10) ↔ 10 * a > b := by
  rw [gt_iff_lt, div_lt_div_iff₀ (by norm_num : (0 : ℚ) < 10)
    (by exact_mod_cast hb : (0 : ℚ) < (b : ℚ))]
  rw [show (1 : ℚ) * (b : ℚ) = ((b : ℕ) : ℚ) by ring,
    show (a : ℚ) * 10 = ((10 * a : ℕ) : ℚ) by push_cast; ring]
  exact Nat.cast_lt

/-- Helper for C9: with a positive denominator, the rational ratio exceeds
seven tenths exactly when ten times the numerator exceeds seven times the
denominator. -/
theorem ratio_gt_seven_tenths_iff (a b : ℕ) (hb : 0 < b) :
    ((a : ℚ) / (b : ℚ) > (7 : ℚ) / 10) ↔ 10 * a > 7 * b := by
  rw [gt_iff_lt, div_lt_div_iff₀ (by norm_num : (0 : ℚ) < 10)
    (by exact_mod_cast hb : (0 : ℚ) < (b : ℚ))]
  rw [show (7 : ℚ) * (b : ℚ) = ((7 * b : ℕ) : ℚ) by push_cast; ring,
    show (a : ℚ) * 10 = ((10 * a : ℕ) : ℚ) by push_cast; ring]
  exact Nat.cast_lt

/-- C9: `detectLanguage` is a pure total function agreeing everywhere with
the claim's specification: `auto` on every empty or whitespace-only
input, otherwise `ja` exactly when the Japanese-character ratio exceeds
0.1, otherwise `en` exactly when the English-like ratio exceeds 0.7,
otherwise `auto`. -/
theorem detectLanguage_matches_spec (t : String) :
    detectLanguage t = detectLanguageSpec t := by
  unfold detectLanguage detectLanguageSpec
  by_cases hws : ∀ c ∈ t.data, jsWhitespace c
  · have h1 : (t.data.isEmpty || (jsTrimData t.data).isEmpty) = true := by
      have := (jsTrimData_eq_nil_iff t.data).mpr hws
      simp [this]
    have h2 : t.data.all jsWhitespace = true := by
      simpa [List.all_eq_true] using hws
    simp [h1, h2]
  · have hne : t.data ≠ [] := by
      intro h
      exact hws (by simp [h])
    have h1 : (t.data.isEmpty || (jsTrimData t.data).isEmpty) = false := by
      have hts : ¬ jsTrimData t.data = [] :=
        fun hcon => hws ((jsTrimData_eq_nil_iff t.data).mp hcon)
      simp [hne, hts]
    have h2 : t.data.all jsWhitespace = false := by
      rw [Bool.eq_false_iff]
      intro hcon
      exact hws (by simpa [List.all_eq_true] using hcon)
    have hlen : 0 < utf16Len t := utf16Len_pos t hne
    simp only [h1, h2, Bool.false_eq_true, if_false,
      ratio_gt_tenth_iff _ _ hlen, ratio_gt_seven_tenths_iff _ _ hlen]

end Cats
